import Mathlib

/-
Verification of the two presentation-generating scripts
(python_pptx_demo.py and superstore_example.py).

The relevant computations of both scripts are shallowly embedded below:
dataframe columns become lists of rationals, the pandas float special
values (inf, -inf, NaN) produced by division become an explicit PFloat
type, the string-to-enum alignment switches become functions on an
Option-valued alignment state, the slide dispatch of the superstore
script becomes a function on its transcribed slide_order list, and the
XML cell-border edit becomes a function on a small cell model.
-/

namespace PptxSpec

/-- RGB color triple, as built by RGBColor(r, g, b) in both scripts. -/
structure RGB where
  r : Nat
  g : Nat
  b : Nat
deriving DecidableEq, Repr

/-- A pandas float cell: either a finite value or one of the special
values inf, -inf, NaN that pandas float division can produce. -/
inductive PFloat where
  | val (q : ℚ)
  | posInf
  | negInf
  | nan
deriving DecidableEq, Repr

/-- df.fillna(0): NaN becomes 0, everything else is unchanged. -/
def fillna0 : PFloat → PFloat
  | PFloat.nan => PFloat.val 0
  | x => x

/-- df.replace([np.inf], 100): +inf becomes 100, everything else
(including -inf) is unchanged. -/
def replaceInf100 : PFloat → PFloat
  | PFloat.posInf => PFloat.val 100
  | x => x

/-- One cell of the growth computation
((df[col] - df[prior_col]) / df[prior_col]) * 100 in pandas float
semantics: with a zero prior, a positive numerator gives +inf, a
negative one gives -inf, and 0/0 gives NaN (each unchanged by the
final multiplication by 100). -/
def qoqRaw (cur prior : ℚ) : PFloat :=
  if prior = 0 then
    if 0 < cur - prior then PFloat.posInf
    else if cur - prior < 0 then PFloat.negInf
    else PFloat.nan
  else PFloat.val ((cur - prior) / prior * 100)

/-- One numeric row of df_table_qoq (python_pptx_demo.py lines 500-503):
each retained year column equals qoqRaw of the year value and the value
one column earlier; no fillna or inf-replacement is applied. -/
def demoQoqRow (vals : List ℚ) : List PFloat :=
  List.zipWith qoqRaw (vals.drop 1) vals

/-- One numeric row of df_hc_qoq (superstore_example.py lines 653-656
and 666-668): each retained quarter column equals qoqRaw of the quarter
value and the value four columns earlier, then fillna(0) and
replace([np.inf], 100) are applied. -/
def hcQoqRow (vals : List ℚ) : List PFloat :=
  (List.zipWith qoqRaw (vals.drop 4) vals).map (fun x => replaceInf100 (fillna0 x))

/-- Columnwise totals of the numeric block of a table:
df.sum(numeric_only=True) over rows of width w
(python_pptx_demo.py line 496, superstore_example.py line 648). -/
def colTotals (w : Nat) (rows : List (List ℚ)) : List ℚ :=
  rows.foldr (fun r acc => List.zipWith (fun a b => a + b) r acc) (List.replicate w 0)

/-- Appending the Total row: totals[label_col] = 'Total';
df.loc['Total'] = totals (python_pptx_demo.py lines 496-499,
superstore_example.py lines 648-651). Each row is its label plus its
numeric cells. -/
def appendTotalRow (w : Nat) (rows : List (String × List ℚ)) : List (String × List ℚ) :=
  rows ++ [("Total", colTotals w (rows.map Prod.snd))]

/-- One cell of the mix computation
(df_hc_mix[col] / df_hc_mix[col].iloc[-1]) * 100 in pandas float
semantics (superstore_example.py lines 658-662). -/
def mixDivide (v t : ℚ) : PFloat :=
  if t = 0 then
    if 0 < v then PFloat.posInf
    else if v < 0 then PFloat.negInf
    else PFloat.nan
  else PFloat.val (v / t * 100)

/-- A numeric column of df_hc after the Total row was appended: the
category values followed by their sum. -/
def colWithTotal (vs : List ℚ) : List ℚ :=
  vs ++ [vs.sum]

/-- One retained column of df_hc_mix: every cell of the column
(Total row included) is divided by the column value in the Total row
(iloc[-1]) and scaled by 100, then fillna(0) is applied
(superstore_example.py lines 658-661 and 667). -/
def mixColumn (vs : List ℚ) : List PFloat :=
  ((colWithTotal vs).map (fun v => mixDivide v ((colWithTotal vs).getLastD 0))).map fillna0

/-- Sum of a list of pandas float cells when all of them are finite,
none otherwise. -/
def finiteSum : List PFloat → Option ℚ
  | [] => some 0
  | PFloat.val q :: rest => (finiteSum rest).map (fun s => q + s)
  | PFloat.posInf :: _ => none
  | PFloat.negInf :: _ => none
  | PFloat.nan :: _ => none

/-- The PP_ALIGN enumeration members used by the scripts. -/
inductive PP_ALIGN where
  | LEFT
  | CENTER
  | RIGHT
deriving DecidableEq, Repr

/-- The MSO_VERTICAL_ANCHOR enumeration members used by the scripts. -/
inductive MSO_VERTICAL_ANCHOR where
  | TOP
  | MIDDLE
  | BOTTOM
deriving DecidableEq, Repr

/-- horizontal alignment helper (python_pptx_demo.py lines 42-50,
superstore_example.py lines 58-66): a match on the alignment string
assigns one of three enumeration members; any other string falls
through every case and the alignment state al is left unchanged. -/
def horizontal_alignment (al : Option PP_ALIGN) (s : String) : Option PP_ALIGN :=
  if s = "left" then some PP_ALIGN.LEFT
  else if s = "center" then some PP_ALIGN.CENTER
  else if s = "right" then some PP_ALIGN.RIGHT
  else al

/-- vertical alignment helper (python_pptx_demo.py lines 52-60,
superstore_example.py lines 68-76): the same shape of match for the
vertical anchor. -/
def vertical_alignment (an : Option MSO_VERTICAL_ANCHOR) (s : String) : Option MSO_VERTICAL_ANCHOR :=
  if s = "top" then some MSO_VERTICAL_ANCHOR.TOP
  else if s = "middle" then some MSO_VERTICAL_ANCHOR.MIDDLE
  else if s = "bottom" then some MSO_VERTICAL_ANCHOR.BOTTOM
  else an

/-- One entry of the slide_order list of superstore_example.py
(lines 30-45): its type tag, title and optional pivot, sub_title and
filters fields. -/
structure SlideSpec where
  type : String
  title : String
  pivot : Option String
  sub_title : Option String
  filters : Option String
deriving DecidableEq, Repr

/-- The slide_order list, transcribed from superstore_example.py
lines 30-45. -/
def slide_order : List SlideSpec :=
  [⟨"transition", "Superstore Analysis", none, some "a python-pptx use case", none⟩,
   ⟨"pivot_summary", "Segment", some "Segment", none, none⟩,
   ⟨"pivot_summary", "Region", some "Region", none, none⟩,
   ⟨"pivot_summary", "Category", some "Category", none, none⟩,
   ⟨"top_customers", "Top Performing Customers", none, none, none⟩,
   ⟨"ship_mode_analysis", "Ship Mode Comparison", none, none, none⟩,
   ⟨"transition", "Appendix", none, none, none⟩,
   ⟨"pivot_dbl_click", "Region: East", some "State", none, some "Region == \"East\""⟩,
   ⟨"pivot_dbl_click", "Region: West", some "State", none, some "Region == \"West\""⟩,
   ⟨"pivot_dbl_click", "Region: South", some "State", none, some "Region == \"South\""⟩,
   ⟨"pivot_dbl_click", "Region: Central", some "State", none, some "Region == \"Central\""⟩,
   ⟨"pivot_dbl_click", "Category: Furniture", some "Sub-Category", none, some "Sub-Category == \"Furniture\""⟩,
   ⟨"pivot_dbl_click", "Category: Technology", some "Sub-Category", none, some "Sub-Category == \"Technology\""⟩,
   ⟨"pivot_dbl_click", "Category: Office Supplies", some "Sub-Category", none, some "Sub-Category == \"Office Supplies\""⟩]

/-- Python str.startswith, modelled on the character lists of the two
strings. -/
def strStartsWith (t p : String) : Bool :=
  p.toList.isPrefixOf t.toList

/-- The branches of the per-slide match statements of
superstore_example.py (lines 637 and 703): one branch guarded by
startswith('pivot'), and one literal case each for the other tags. -/
inductive SlideBranch where
  | pivotBranch
  | topCustomers
  | shipModeAnalysis
  | transition
deriving DecidableEq, Repr

/-- The rendering dispatch of superstore_example.py lines 703-779: the
branch selected for a slide-type string, none when no case matches. -/
def renderDispatch (t : String) : Option SlideBranch :=
  if strStartsWith t "pivot" then some SlideBranch.pivotBranch
  else if t = "top_customers" then some SlideBranch.topCustomers
  else if t = "ship_mode_analysis" then some SlideBranch.shipModeAnalysis
  else if t = "transition" then some SlideBranch.transition
  else none

/-- The five slide-type tags named by the specification. -/
def fiveTags : List String :=
  ["transition", "pivot_summary", "pivot_dbl_click", "top_customers", "ship_mode_analysis"]

/-- The fill color chosen for one sparkbar data point
(python_pptx_demo.py lines 442-454, superstore_example.py
lines 560-572): green when the value is strictly positive, red when
strictly negative, black otherwise. -/
def sparkbarFill (v : ℚ) : RGB :=
  if 0 < v then ⟨0, 176, 80⟩
  else if v < 0 then ⟨235, 70, 81⟩
  else ⟨0, 0, 0⟩

/-- The fill colors of all points of one sparkbar series: the loop over
series.points applies sparkbarFill to each data value in order. -/
def sparkbarFills (data : List ℚ) : List RGB :=
  data.map sparkbarFill

/-- A slide shape, as far as the fallback claims need: a textbox with
its text, a picture, or a chart. -/
inductive Shape where
  | textbox (text : String)
  | picture
  | chart
deriving DecidableEq, Repr

/-- The annotation text added next to the demo boxplot picture when
image generation succeeds (python_pptx_demo.py line 692). -/
def demo_success_note : String :=
  "Any image file can be inserted into PowerPoint. For example, boxplots are not available in the python API, so the chart can be made in seaborn then saved as a PNG image and inserted onto the slide."

/-- The placeholder text of the demo except branch
(python_pptx_demo.py line 695). -/
def demo_failure_note : String :=
  "Any image file can be inserted into PowerPoint. The image file was unable to be inserted into the file. Check the seaborn_boxplot() function."

/-- The placeholder text of the superstore except branch
(superstore_example.py line 772). -/
def ship_mode_failure_note : String :=
  "The image file was unable to be inserted into the file."

/-- The try/except of python_pptx_demo.py lines 688-695: when the
chart-to-picture rendering succeeds the picture and its annotation
textbox are appended to the slide; on any exception a textbox with the
placeholder text is appended instead. -/
def picture_slide_demo (render : Except String Shape) (slide : List Shape) : List Shape :=
  match render with
  | Except.ok pic => slide ++ [pic, Shape.textbox demo_success_note]
  | Except.error _ => slide ++ [Shape.textbox demo_failure_note]

/-- The try/except of superstore_example.py lines 767-772: the rendered
picture on success, a placeholder textbox on any exception. -/
def ship_mode_slide (render : Except String Shape) (slide : List Shape) : List Shape :=
  match render with
  | Except.ok pic => slide ++ [pic]
  | Except.error _ => slide ++ [Shape.textbox ship_mode_failure_note]

/-- An externally visible input/output action performed by a script:
reading the CSV, rendering a chart image into an in-memory BytesIO
buffer (not a file), or writing a file. -/
inductive Effect where
  | csvRead (path : String)
  | memImage
  | fileWrite (path : String) (content : List Nat)
deriving DecidableEq, Repr

/-- Modelled from the spec: prs.save serializes the deck into the bytes
of one binary presentation-document file; the container format belongs
to the third-party library and is not in this repository, so it is
modelled as a fixed two-byte container header followed by one byte per
slide. Only its non-emptiness is used. -/
def presentationBytes (slideCount : Nat) : List Nat :=
  80 :: 75 :: List.replicate slideCount 0

/-- The file-system-visible actions of one run of python_pptx_demo.py:
the boxplot rendering writes only to an in-memory buffer (and is
skipped on failure), and the single prs.save (line 713) writes the
7-slide deck. -/
def demoEffects (imageOk : Bool) : List Effect :=
  (if imageOk then [Effect.memImage] else []) ++
    [Effect.fileWrite "./python_pptx_demo.pptx" (presentationBytes 7)]

/-- The file-system-visible actions of one run of
superstore_example.py: the CSV read (line 617), the in-memory boxplot
buffer, and the single prs.save (line 781) writing one slide per
slide_order entry. -/
def superstoreEffects (imageOk : Bool) : List Effect :=
  Effect.csvRead "./superstore.csv" ::
    ((if imageOk then [Effect.memImage] else []) ++
      [Effect.fileWrite "./superstore_example.pptx" (presentationBytes slide_order.length)])

/-- Whether an effect writes a file. -/
def isFileWrite : Effect → Bool
  | Effect.fileWrite _ _ => true
  | _ => false

/-- The file writes among a list of effects. -/
def fileWrites (es : List Effect) : List Effect :=
  es.filter isFileWrite

/-- A top-level operation of one of the scripts together with whether
the source wraps it in a try/except handler. -/
structure ScriptStep where
  name : String
  guarded : Bool
deriving DecidableEq, Repr

/-- The top-level operations of python_pptx_demo.py in source order;
only the chart-to-picture step (lines 688-695) is inside a try/except. -/
def demoSteps : List ScriptStep :=
  [⟨"generate_random_data", false⟩,
   ⟨"pivot_df_table", false⟩,
   ⟨"append_totals", false⟩,
   ⟨"compute_qoq", false⟩,
   ⟨"title_slide", false⟩,
   ⟨"text_slide", false⟩,
   ⟨"shapes_slide", false⟩,
   ⟨"charts_slide", false⟩,
   ⟨"tables_sparklines_slide", false⟩,
   ⟨"picture_image_generation", true⟩,
   ⟨"conclusion_slide", false⟩,
   ⟨"save_presentation", false⟩]

/-- The top-level operations of superstore_example.py in source order;
the df.query filter step (lines 640-643) and the chart-to-picture step
(lines 767-772) are each inside a try/except. -/
def superstoreSteps : List ScriptStep :=
  [⟨"read_csv", false⟩,
   ⟨"derive_date_columns", false⟩,
   ⟨"query_filters", true⟩,
   ⟨"groupby_pivot", false⟩,
   ⟨"append_totals", false⟩,
   ⟨"compute_qoq", false⟩,
   ⟨"compute_mix", false⟩,
   ⟨"top_customers_prep", false⟩,
   ⟨"ship_mode_prep", false⟩,
   ⟨"render_tables_and_charts", false⟩,
   ⟨"ship_mode_image_generation", true⟩,
   ⟨"transition_render", false⟩,
   ⟨"save_presentation", false⟩]

/-- The names of the chart-to-picture (image generation) steps. -/
def imageGenSteps : List String :=
  ["picture_image_generation", "ship_mode_image_generation"]

/-- Python lines.split(":")[-1]: the characters after the last
separator (the whole string when the separator is absent). -/
def lastField (sep : Char) (s : String) : String :=
  String.mk (s.toList.foldl (fun acc c => if c = sep then [] else acc ++ [c]) [])

/-- Whether needle occurs as a contiguous substring of hay, modelling
the Python expression needle in hay on tag strings. -/
def substrList (needle hay : List Char) : Bool :=
  match hay with
  | [] => needle.isEmpty
  | _ :: t => needle.isPrefixOf hay || substrList needle t

/-- String form of substrList. -/
def strContains (hay needle : String) : Bool :=
  substrList needle.toList hay.toList

/-- One a:lnX border element appended to tcPr by _cell_border, with the
attributes and children given to SubElement
(python_pptx_demo.py lines 167-171, superstore_example.py
lines 183-187). -/
structure LnEl where
  tag : String
  w : String
  cap : String
  cmpd : String
  algn : String
  color : String
  dash : String
deriving DecidableEq, Repr

/-- The fill state of a table cell as python-pptx exposes it: a solid
RGB fill, the transparent background fill, or an inherited/unset fill. -/
inductive FillKind where
  | solid (c : RGB)
  | background
  | inherited
deriving DecidableEq, Repr

/-- A table cell as far as _cell_border touches it: its fill, the line
elements of its tcPr, and its remaining content (text paragraphs,
margins), which _cell_border never touches. -/
structure CellSt where
  fill : FillKind
  tcPr : List LnEl
  content : List String
deriving DecidableEq, Repr

/-- One iteration of the borders loop of _cell_border: every tcPr child
whose tag contains the short tag of lines is removed, then the new
border element is appended. -/
def applyBorder (tcPr : List LnEl) (lines border_width border_color line_type : String) : List LnEl :=
  (tcPr.filter (fun e => !(strContains e.tag (lastField ':' lines)))) ++
    [⟨lines, border_width, "flat", "sng", "ctr", border_color, line_type⟩]

/-- _cell_border (python_pptx_demo.py lines 140-180,
superstore_example.py lines 156-196): when the cell has a solid fill
its color is saved and the fill is set to transparent, the border
elements are rewritten, and the saved solid fill is reapplied at the
end; the rest of the cell is untouched. -/
def cell_border (cell : CellSt) (borders : List String) (line_type border_color border_width : String) : CellSt :=
  let saved : Option RGB :=
    match cell.fill with
    | FillKind.solid c => some c
    | _ => none
  let fill1 : FillKind :=
    match saved with
    | some _ => FillKind.background
    | none => cell.fill
  let tcPr1 : List LnEl :=
    borders.foldl (fun acc lines => applyBorder acc lines border_width border_color line_type) cell.tcPr
  let fill2 : FillKind :=
    match saved with
    | some c => FillKind.solid c
    | none => fill1
  CellSt.mk fill2 tcPr1 cell.content

/-- A sample green-filled cell with one left-border element, used to
evaluate cell_border on concrete input. -/
def sampleCell : CellSt :=
  CellSt.mk (FillKind.solid (RGB.mk 204 255 204))
    [LnEl.mk "a:lnL" "12700" "flat" "sng" "ctr" "07182D" "solid"] ["cellText"]

/-- C7: for every alignment state and string, horizontal_alignment maps
exactly the three strings left, center, right to PP_ALIGN.LEFT, CENTER,
RIGHT, and vertical_alignment maps exactly top, middle, bottom to the
three vertical anchors; any other string results in no assignment and
the state is left unchanged. -/
theorem c7_alignment_mapping (al : Option PP_ALIGN) (an : Option MSO_VERTICAL_ANCHOR) (s : String) :
    (s = "left" → horizontal_alignment al s = some PP_ALIGN.LEFT) ∧
    (s = "center" → horizontal_alignment al s = some PP_ALIGN.CENTER) ∧
    (s = "right" → horizontal_alignment al s = some PP_ALIGN.RIGHT) ∧
    (s ≠ "left" → s ≠ "center" → s ≠ "right" → horizontal_alignment al s = al) ∧
    (s = "top" → vertical_alignment an s = some MSO_VERTICAL_ANCHOR.TOP) ∧
    (s = "middle" → vertical_alignment an s = some MSO_VERTICAL_ANCHOR.MIDDLE) ∧
    (s = "bottom" → vertical_alignment an s = some MSO_VERTICAL_ANCHOR.BOTTOM) ∧
    (s ≠ "top" → s ≠ "middle" → s ≠ "bottom" → vertical_alignment an s = an) := by
  refine ⟨?_, ?_, ?_, ?_, ?_, ?_, ?_, ?_⟩
  · intro h; subst h; simp [horizontal_alignment]
  · intro h; subst h; simp [horizontal_alignment]
  · intro h; subst h; simp [horizontal_alignment]
  · intro h1 h2 h3; simp [horizontal_alignment, h1, h2, h3]
  · intro h; subst h; simp [vertical_alignment]
  · intro h; subst h; simp [vertical_alignment]
  · intro h; subst h; simp [vertical_alignment]
  · intro h1 h2 h3; simp [vertical_alignment, h1, h2, h3]

/-- C7 witness: the mapping evaluated on concrete strings, including a
string outside the mapped set that leaves the state unchanged. -/
theorem c7_alignment_mapping_witness :
    horizontal_alignment none "center" = some PP_ALIGN.CENTER ∧
    horizontal_alignment (some PP_ALIGN.LEFT) "justify" = some PP_ALIGN.LEFT ∧
    vertical_alignment none "bottom" = some MSO_VERTICAL_ANCHOR.BOTTOM ∧
    vertical_alignment (some MSO_VERTICAL_ANCHOR.TOP) "justify" = some MSO_VERTICAL_ANCHOR.TOP := by
  refine ⟨?_, ?_, ?_, ?_⟩
  · exact (c7_alignment_mapping none none "center").2.1 rfl
  · exact (c7_alignment_mapping (some PP_ALIGN.LEFT) none "justify").2.2.2.1
      (by decide) (by decide) (by decide)
  · exact (c7_alignment_mapping none none "bottom").2.2.2.2.2.2.1 rfl
  · exact (c7_alignment_mapping none (some MSO_VERTICAL_ANCHOR.TOP) "justify").2.2.2.2.2.2.2
      (by decide) (by decide) (by decide)

/-- C9: in sparkbar, every data point gets fill color RGB(0,176,80)
when its value is strictly positive, RGB(235,70,81) when strictly
negative, and RGB(0,0,0) when zero. -/
theorem c9_sparkbar_colors (data : List ℚ) (i : Nat) (h : i < data.length) :
    (0 < data.getD i 0 → (sparkbarFills data).getD i (RGB.mk 0 0 0) = RGB.mk 0 176 80) ∧
    (data.getD i 0 < 0 → (sparkbarFills data).getD i (RGB.mk 0 0 0) = RGB.mk 235 70 81) ∧
    (data.getD i 0 = 0 → (sparkbarFills data).getD i (RGB.mk 0 0 0) = RGB.mk 0 0 0) := by
  have hlen : i < (sparkbarFills data).length := by simpa [sparkbarFills] using h
  rw [List.getD_eq_getElem _ _ h, List.getD_eq_getElem _ _ hlen]
  simp only [sparkbarFills, List.getElem_map]
  unfold sparkbarFill
  refine ⟨?_, ?_, ?_⟩
  · intro hv; rw [if_pos hv]
  · intro hv; rw [if_neg (by linarith), if_pos hv]
  · intro hv; rw [if_neg (by simp [hv]), if_neg (by simp [hv])]

/-- C9 witness: the three sign cases evaluated on the concrete data
list with a positive, a negative, and a zero value. -/
theorem c9_sparkbar_colors_witness :
    (sparkbarFills [(3 : ℚ), -2, 0]).getD 0 (RGB.mk 0 0 0) = RGB.mk 0 176 80 ∧
    (sparkbarFills [(3 : ℚ), -2, 0]).getD 1 (RGB.mk 0 0 0) = RGB.mk 235 70 81 ∧
    (sparkbarFills [(3 : ℚ), -2, 0]).getD 2 (RGB.mk 0 0 0) = RGB.mk 0 0 0 := by
  refine ⟨?_, ?_, ?_⟩
  · exact (c9_sparkbar_colors [3, -2, 0] 0 (by norm_num)).1 (by norm_num)
  · exact (c9_sparkbar_colors [3, -2, 0] 1 (by norm_num)).2.1 (by norm_num)
  · exact (c9_sparkbar_colors [3, -2, 0] 2 (by norm_num)).2.2 (by norm_num)

/-- C5: if the chart-to-picture generation raises any exception, each
script appends a textbox with its descriptive placeholder text to the
slide and continues; if it does not raise, the rendered picture is
appended (together with the annotation textbox in the demo script). -/
theorem c5_image_fallback (render : Except String Shape) (slide : List Shape) :
    (∀ e, render = Except.error e →
      picture_slide_demo render slide = slide ++ [Shape.textbox demo_failure_note] ∧
      ship_mode_slide render slide = slide ++ [Shape.textbox ship_mode_failure_note]) ∧
    (∀ pic, render = Except.ok pic →
      picture_slide_demo render slide = slide ++ [pic, Shape.textbox demo_success_note] ∧
      ship_mode_slide render slide = slide ++ [pic]) := by
  constructor
  · intro e he; subst he; exact ⟨rfl, rfl⟩
  · intro pic hp; subst hp; exact ⟨rfl, rfl⟩

/-- C5 witness: a failing render produces the placeholder textbox and a
successful render produces the picture, on concrete inputs. -/
theorem c5_image_fallback_witness :
    ship_mode_slide (Except.error "rendering failed") [] = [Shape.textbox ship_mode_failure_note] ∧
    picture_slide_demo (Except.ok Shape.picture) [] = [Shape.picture, Shape.textbox demo_success_note] := by
  have h1 := (c5_image_fallback (Except.error "rendering failed") []).1 "rendering failed" rfl
  have h2 := (c5_image_fallback (Except.ok Shape.picture) []).2 Shape.picture rfl
  exact ⟨by simpa using h1.2, by simpa using h2.1⟩

/-- C2 counterexample: the superstore script wraps its df.query filter
step in a try/except, and that step is not the image-generation step,
so image generation is not the only explicitly handled operation. -/
theorem c2_counterexample :
    ScriptStep.mk "query_filters" true ∈ superstoreSteps ∧
    "query_filters" ∉ imageGenSteps := by
  constructor
  · decide
  · decide

/-- C2 (amended): the operations wrapped in a try/except handler are
exactly the chart-to-picture step in the demo script and the df.query
filter step plus the chart-to-picture step in the superstore script;
every other operation is unguarded. -/
theorem c2_guarded_steps :
    (demoSteps.filter (fun t => t.guarded)).map ScriptStep.name = ["picture_image_generation"] ∧
    (superstoreSteps.filter (fun t => t.guarded)).map ScriptStep.name =
      ["query_filters", "ship_mode_image_generation"] := by
  constructor
  · rfl
  · rfl

/-- C6: each script run performs exactly one file write, of the binary
presentation file in the working directory, whose content is non-empty,
whether or not the in-memory image rendering succeeded; no other file
is written. The serialized content is modelled from the spec. -/
theorem c6_single_output :
    fileWrites (demoEffects true) =
      [Effect.fileWrite "./python_pptx_demo.pptx" (presentationBytes 7)] ∧
    fileWrites (demoEffects false) =
      [Effect.fileWrite "./python_pptx_demo.pptx" (presentationBytes 7)] ∧
    fileWrites (superstoreEffects true) =
      [Effect.fileWrite "./superstore_example.pptx" (presentationBytes slide_order.length)] ∧
    fileWrites (superstoreEffects false) =
      [Effect.fileWrite "./superstore_example.pptx" (presentationBytes slide_order.length)] ∧
    presentationBytes 7 ≠ [] ∧
    presentationBytes slide_order.length ≠ [] := by
  refine ⟨rfl, rfl, rfl, rfl, ?_, ?_⟩
  · simp [presentationBytes]
  · simp [presentationBytes]

/-- C8: the slide dispatch covers a fixed set of exactly five distinct
tags, every slide_order entry carries one of them, and the rendering
match selects a branch for every entry. -/
theorem c8_slide_dispatch :
    fiveTags.length = 5 ∧ fiveTags.Nodup ∧
    (∀ s ∈ slide_order, s.type ∈ fiveTags) ∧
    (∀ s ∈ slide_order, (renderDispatch s.type).isSome = true) := by
  refine ⟨rfl, by decide, by decide, by decide⟩

/-- C8 witness: a concrete slide_order entry carries one of the five
tags and is dispatched to a branch. -/
theorem c8_slide_dispatch_witness :
    (SlideSpec.mk "pivot_summary" "Segment" (some "Segment") none none).type ∈ fiveTags ∧
    (renderDispatch (SlideSpec.mk "pivot_summary" "Segment" (some "Segment") none none).type).isSome = true := by
  have h := c8_slide_dispatch
  exact ⟨h.2.2.1 _ (by decide), h.2.2.2 _ (by decide)⟩

theorem getD_zipWith_add (r acc : List ℚ) (j : Nat) (h1 : j < r.length) (h2 : j < acc.length) :
    (List.zipWith (fun a b => a + b) r acc).getD j 0 = r.getD j 0 + acc.getD j 0 := by
  induction r generalizing acc j with
  | nil => simp at h1
  | cons a as ih =>
    cases acc with
    | nil => simp at h2
    | cons b bs =>
      cases j with
      | zero => simp
      | succ n =>
        simp only [List.zipWith_cons_cons, List.getD_cons_succ]
        exact ih bs n (by simpa using h1) (by simpa using h2)

theorem colTotals_length (w : Nat) (rows : List (List ℚ)) (hw : ∀ r ∈ rows, r.length = w) :
    (colTotals w rows).length = w := by
  induction rows with
  | nil => simp [colTotals]
  | cons r rs ih =>
    have hr : r.length = w := hw r (List.mem_cons_self _ _)
    have ih2 := ih (fun x hx => hw x (List.mem_cons_of_mem _ hx))
    simp only [colTotals, List.foldr_cons, List.length_zipWith] at ih2 ⊢
    omega

theorem colTotals_getD (w : Nat) (rows : List (List ℚ)) (j : Nat)
    (hw : ∀ r ∈ rows, r.length = w) (hj : j < w) :
    (colTotals w rows).getD j 0 = (rows.map (fun r => r.getD j 0)).sum := by
  induction rows with
  | nil =>
    have hl : j < (List.replicate w (0 : ℚ)).length := by simpa using hj
    simp only [colTotals, List.foldr_nil, List.map_nil, List.sum_nil]
    rw [List.getD_eq_getElem _ _ hl, List.getElem_replicate]
  | cons r rs ih =>
    have hr : r.length = w := hw r (List.mem_cons_self _ _)
    have hw2 : ∀ x ∈ rs, x.length = w := fun x hx => hw x (List.mem_cons_of_mem _ hx)
    have hlen : (colTotals w rs).length = w := colTotals_length w rs hw2
    have step : (colTotals w (r :: rs)).getD j 0 = r.getD j 0 + (colTotals w rs).getD j 0 := by
      simp only [colTotals, List.foldr_cons]
      exact getD_zipWith_add r _ j (by omega) (by
        have := hlen
        simp only [colTotals] at this
        omega)
    rw [step, ih hw2]
    simp

/-- C3: in each generated summary table the appended Total row holds,
for every numeric column, the sum of that column over the constituent
(non-Total) rows, which are left in place below the appended row. -/
theorem c3_total_row (w j : Nat) (rows : List (String × List ℚ))
    (hw : ∀ r ∈ rows, r.2.length = w) (hj : j < w) :
    (appendTotalRow w rows).dropLast = rows ∧
    (appendTotalRow w rows).getLast? = some ("Total", colTotals w (rows.map Prod.snd)) ∧
    (colTotals w (rows.map Prod.snd)).getD j 0 =
      ((rows.map Prod.snd).map (fun r => r.getD j 0)).sum := by
  refine ⟨?_, ?_, ?_⟩
  · rw [appendTotalRow, List.dropLast_concat]
  · rw [appendTotalRow, List.getLast?_concat]
  · refine colTotals_getD w (rows.map Prod.snd) j ?_ hj
    intro r hr
    obtain ⟨p, hp, rfl⟩ := List.mem_map.mp hr
    exact hw p hp

/-- C3 witness: the Total row of a concrete two-row, two-column table
carries the columnwise sums of the two constituent rows. -/
theorem c3_total_row_witness :
    (appendTotalRow 2 [("A", [(1 : ℚ), 2]), ("B", [3, 4])]).dropLast =
      [("A", [(1 : ℚ), 2]), ("B", [3, 4])] ∧
    (appendTotalRow 2 [("A", [(1 : ℚ), 2]), ("B", [3, 4])]).getLast? =
      some ("Total", colTotals 2 ([("A", [(1 : ℚ), 2]), ("B", [3, 4])].map Prod.snd)) ∧
    (colTotals 2 ([("A", [(1 : ℚ), 2]), ("B", [3, 4])].map Prod.snd)).getD 0 0 =
      (([("A", [(1 : ℚ), 2]), ("B", [3, 4])].map Prod.snd).map (fun r => r.getD 0 0)).sum :=
  c3_total_row 2 0 [("A", [(1 : ℚ), 2]), ("B", [3, 4])] (by decide) (by norm_num)

theorem finiteSum_map_val (g : ℚ → ℚ) (l : List ℚ) :
    finiteSum (l.map (fun v => PFloat.val (g v))) = some ((l.map g).sum) := by
  induction l with
  | nil => rfl
  | cons x xs ih => simp [finiteSum, ih]

theorem sum_map_div_mul (vs : List ℚ) (t : ℚ) :
    (vs.map (fun v => v / t * 100)).sum = vs.sum / t * 100 := by
  induction vs with
  | nil => simp
  | cons x xs ih =>
    simp only [List.map_cons, List.sum_cons, ih]
    ring

theorem colWithTotal_getLastD (vs : List ℚ) : (colWithTotal vs).getLastD 0 = vs.sum := by
  simp [colWithTotal]

/-- C4 (amended): for each retained quarter column of df_hc_mix whose
Total-row value (the divisor) is nonzero, the mix percentages across
the grouped category rows (all rows above the Total row) are all finite
and sum to exactly 100. -/
theorem c4_mix_sum (vs : List ℚ) (h : vs.sum ≠ 0) :
    finiteSum ((mixColumn vs).dropLast) = some 100 := by
  have hcol : mixColumn vs = (colWithTotal vs).map (fun v => fillna0 (mixDivide v vs.sum)) := by
    rw [mixColumn, colWithTotal_getLastD, List.map_map]
    rfl
  have hfun : (fun v : ℚ => fillna0 (mixDivide v vs.sum)) =
      (fun v : ℚ => PFloat.val (v / vs.sum * 100)) := by
    funext v
    rw [mixDivide, if_neg h]
    rfl
  rw [hcol, hfun]
  simp only [colWithTotal, List.map_append, List.map_cons, List.map_nil, List.dropLast_concat]
  rw [finiteSum_map_val, sum_map_div_mul, div_self h, one_mul]

/-- C4 counterexample: a retained column whose cells are all zero (two
categories with zero sales) has a zero Total, every mix entry becomes
NaN and is filled with 0, and the mix percentages sum to 0, not 100. -/
theorem c4_counterexample :
    finiteSum ((mixColumn [0, 0]).dropLast) = some 0 ∧
    finiteSum ((mixColumn [0, 0]).dropLast) ≠ some 100 := by
  have hmix : mixColumn [0, 0] = [PFloat.val 0, PFloat.val 0, PFloat.val 0] := by
    norm_num [mixColumn, colWithTotal, mixDivide, fillna0]
  rw [hmix]
  constructor
  · norm_num [finiteSum]
  · norm_num [finiteSum]

/-- C4 witness: a concrete column with a nonzero Total whose mix
percentages sum to 100. -/
theorem c4_mix_sum_witness :
    ([(30 : ℚ), 70].sum ≠ 0) ∧ finiteSum ((mixColumn [30, 70]).dropLast) = some 100 :=
  ⟨by norm_num, c4_mix_sum [30, 70] (by norm_num)⟩

theorem hcQoqRow_length (vals : List ℚ) : (hcQoqRow vals).length = vals.length - 4 := by
  simp only [hcQoqRow, List.length_map, List.length_zipWith, List.length_drop]
  omega

theorem demoQoqRow_length (vals : List ℚ) : (demoQoqRow vals).length = vals.length - 1 := by
  simp only [demoQoqRow, List.length_zipWith, List.length_drop]
  omega

/-- C1 (amended): for a nonzero prior value, both growth tables hold
exactly (current - prior) / prior * 100, with the prior taken 4 quarter
columns back in the superstore script and 1 year column back in the
demo script; for a zero prior the superstore script yields 100 when the
current value is positive, -inf when it is negative, and 0 when it is
zero, while the demo script applies no replacement and the cell stays
+inf, -inf, or NaN. -/
theorem c1_qoq_growth (vals : List ℚ) (j : Nat) (h4 : j + 4 < vals.length) :
    (vals.getD j 0 ≠ 0 →
      (hcQoqRow vals).getD j PFloat.nan =
        PFloat.val ((vals.getD (j + 4) 0 - vals.getD j 0) / vals.getD j 0 * 100) ∧
      (demoQoqRow vals).getD j PFloat.nan =
        PFloat.val ((vals.getD (j + 1) 0 - vals.getD j 0) / vals.getD j 0 * 100)) ∧
    (vals.getD j 0 = 0 →
      (hcQoqRow vals).getD j PFloat.nan =
        (if 0 < vals.getD (j + 4) 0 then PFloat.val 100
         else if vals.getD (j + 4) 0 < 0 then PFloat.negInf
         else PFloat.val 0) ∧
      (demoQoqRow vals).getD j PFloat.nan =
        (if 0 < vals.getD (j + 1) 0 then PFloat.posInf
         else if vals.getD (j + 1) 0 < 0 then PFloat.negInf
         else PFloat.nan)) := by
  have hj : j < vals.length := by omega
  have h1 : j + 1 < vals.length := by omega
  have hhc : j < (hcQoqRow vals).length := by rw [hcQoqRow_length]; omega
  have hdm : j < (demoQoqRow vals).length := by rw [demoQoqRow_length]; omega
  have ehc : (hcQoqRow vals).getD j PFloat.nan =
      replaceInf100 (fillna0 (qoqRaw (vals.getD (j + 4) 0) (vals.getD j 0))) := by
    rw [List.getD_eq_getElem _ _ hhc, List.getD_eq_getElem _ _ h4, List.getD_eq_getElem _ _ hj]
    simp only [hcQoqRow, List.getElem_map, List.getElem_zipWith, List.getElem_drop]
    simp only [show 4 + j = j + 4 from Nat.add_comm 4 j]
  have edm : (demoQoqRow vals).getD j PFloat.nan =
      qoqRaw (vals.getD (j + 1) 0) (vals.getD j 0) := by
    rw [List.getD_eq_getElem _ _ hdm, List.getD_eq_getElem _ _ h1, List.getD_eq_getElem _ _ hj]
    simp only [demoQoqRow, List.getElem_zipWith, List.getElem_drop]
    simp only [show 1 + j = j + 1 from Nat.add_comm 1 j]
  constructor
  · intro hne
    constructor
    · rw [ehc]
      simp only [qoqRaw, if_neg hne]
      rfl
    · rw [edm]
      simp only [qoqRaw, if_neg hne]
  · intro hz
    constructor
    · rw [ehc]
      simp only [qoqRaw, hz, if_pos rfl, sub_zero]
      split_ifs <;> rfl
    · rw [edm]
      simp only [qoqRaw, hz, eq_self_iff_true, if_true, sub_zero]

/-- C1 counterexample: with a zero prior value the superstore script
produces two different replacement values for the zero-division case,
100 when the current value is positive and 0 when it is zero, and the
demo script replaces nothing at all (the cell stays +inf), so the
zero-division case is not mapped to one fixed sentinel value. -/
theorem c1_counterexample :
    hcQoqRow [0, 10, 10, 10, 2] = [PFloat.val 100] ∧
    hcQoqRow [0, 10, 10, 10, 0] = [PFloat.val 0] ∧
    demoQoqRow [0, 5] = [PFloat.posInf] ∧
    PFloat.val 100 ≠ PFloat.val 0 := by
  refine ⟨?_, ?_, ?_, ?_⟩
  · norm_num [hcQoqRow, qoqRaw, fillna0, replaceInf100]
  · norm_num [hcQoqRow, qoqRaw, fillna0, replaceInf100]
  · norm_num [demoQoqRow, qoqRaw]
  · simp

/-- C1 witness: the growth formula evaluated on a concrete row with
nonzero priors: (5 - 1) / 1 * 100 = 400 for the lag-4 superstore table
and (2 - 1) / 1 * 100 = 100 for the lag-1 demo table. -/
theorem c1_qoq_growth_witness :
    (hcQoqRow [1, 2, 3, 4, 5]).getD 0 PFloat.nan = PFloat.val 400 ∧
    (demoQoqRow [1, 2, 3, 4, 5]).getD 0 PFloat.nan = PFloat.val 100 := by
  have h := (c1_qoq_growth [1, 2, 3, 4, 5] 0 (by norm_num)).1
    (by norm_num [List.getD_cons_zero])
  constructor
  · rw [h.1]
    norm_num [List.getD_cons_zero, List.getD_cons_succ]
  · rw [h.2]
    norm_num [List.getD_cons_zero, List.getD_cons_succ]

theorem mem_foldl_applyBorder (e : LnEl) (borders : List String) (acc : List LnEl)
    (bw bc lt : String) (he : e ∈ acc)
    (hn : ∀ b ∈ borders, strContains e.tag (lastField ':' b) = false) :
    e ∈ borders.foldl (fun a l => applyBorder a l bw bc lt) acc := by
  induction borders generalizing acc with
  | nil => simpa using he
  | cons b bs ih =>
    simp only [List.foldl_cons]
    refine ih _ ?_ (fun x hx => hn x (List.mem_cons_of_mem _ hx))
    unfold applyBorder
    refine List.mem_append_left _ ?_
    refine List.mem_filter.mpr ⟨he, ?_⟩
    have hb := hn b (List.mem_cons_self _ _)
    simp [hb]

/-- C10: _cell_border restores a pre-existing solid fill, leaving the
cell with a solid fill of the same RGB color after the call, leaves the
rest of the cell content unchanged, and keeps every tcPr element whose
tag matches none of the listed borders. -/
theorem c10_cell_border (cell : CellSt) (borders : List String) (lt bc bw : String) :
    (∀ c, cell.fill = FillKind.solid c →
      (cell_border cell borders lt bc bw).fill = FillKind.solid c) ∧
    (cell_border cell borders lt bc bw).content = cell.content ∧
    (∀ e ∈ cell.tcPr, (∀ b ∈ borders, strContains e.tag (lastField ':' b) = false) →
      e ∈ (cell_border cell borders lt bc bw).tcPr) := by
  refine ⟨?_, rfl, ?_⟩
  · intro c hc
    simp [cell_border, hc]
  · intro e he hn
    exact mem_foldl_applyBorder e borders cell.tcPr bw bc lt he hn

/-- C10 witness: on a concrete green-filled cell with one left-border
element, applying a bottom border restores the solid green fill, keeps
the content, and keeps the untouched left-border element. -/
theorem c10_cell_border_witness :
    (cell_border sampleCell ["a:lnB"] "solid" "07182D" "12700").fill =
      FillKind.solid (RGB.mk 204 255 204) ∧
    (cell_border sampleCell ["a:lnB"] "solid" "07182D" "12700").content = ["cellText"] ∧
    LnEl.mk "a:lnL" "12700" "flat" "sng" "ctr" "07182D" "solid" ∈
      (cell_border sampleCell ["a:lnB"] "solid" "07182D" "12700").tcPr := by
  have h := c10_cell_border sampleCell ["a:lnB"] "solid" "07182D" "12700"
  exact ⟨h.1 (RGB.mk 204 255 204) rfl, h.2.1, h.2.2 _ (by decide) (by decide)⟩

end PptxSpec
